import Mathlib

/-!
Verification of the pywapor physical model evaluation engine.

This file gives a shallow embedding of the orchestrator code in
`pywapor/et_look.py` and `pywapor/se_root.py` together with the parts of the
formula library that the orchestrators invoke, and proves the behavioural
properties of the pipeline (saturation-index bracketing, version dispatch,
per-pixel undefined propagation, fixed-iteration stability solving, stress
clamping, default substitution, output-variable selection, determinism and
the frame property of the in-memory entry point).

Numeric grid cells are modelled as exact rationals; the floating-point
not-a-number sentinel is modelled as `Option.none`.
-/

namespace Pywapor

/-- Clamp a value into the interval `[0, 1]`, as `numpy.clip(x, 0, 1)`. -/
def clamp01 (x : ℚ) : ℚ := min 1 (max 0 x)

theorem clamp01_nonneg (x : ℚ) : 0 ≤ clamp01 x := by
  simp [clamp01, le_min_iff, le_max_iff]

theorem clamp01_le_one (x : ℚ) : clamp01 x ≤ 1 := by
  simp [clamp01]

theorem clamp01_of_nonpos {x : ℚ} (h : x ≤ 0) : clamp01 x = 0 := by
  have h0 : max 0 x = 0 := max_eq_left h
  simp [clamp01, h0]

/-- Modelled from the spec: the root-zone soil-moisture solver's saturation
index (`soil_moisture.soil_moisture_from_maximum_temperature`, invoked at
`se_root.py` line 169; the `soil_moisture` formula module itself is not part
of the sources here).  Per spec §4.4 the index is
`clamp((lst_max - lst) / (lst_max - lst_min), 0, 1)` and a pixel where
`lst_max = lst_min` yields the undefined sentinel instead of a division
error. -/
def soil_moisture_from_maximum_temperature (lst_max lst lst_min : ℚ) : Option ℚ :=
  if lst_max = lst_min then none
  else some (clamp01 ((lst_max - lst) / (lst_max - lst_min)))

/-- C1: for every pixel with lst_max > lst_min the root-zone saturation index
equals clamp((lst_max - lst) / (lst_max - lst_min), 0, 1) and hence lies in
[0, 1]; for every pixel with lst_max = lst_min the result is the undefined
sentinel, and no division error is raised. -/
theorem se_root_saturation_index (lst_max lst lst_min : ℚ) :
    (lst_min < lst_max →
      soil_moisture_from_maximum_temperature lst_max lst lst_min
        = some (clamp01 ((lst_max - lst) / (lst_max - lst_min))) ∧
      ∀ v, soil_moisture_from_maximum_temperature lst_max lst lst_min = some v →
        0 ≤ v ∧ v ≤ 1) ∧
    (lst_max = lst_min →
      soil_moisture_from_maximum_temperature lst_max lst lst_min = none) := by
  constructor
  · intro hlt
    have hne : lst_max ≠ lst_min := ne_of_gt hlt
    constructor
    · simp [soil_moisture_from_maximum_temperature, hne]
    · intro v hv
      simp [soil_moisture_from_maximum_temperature, hne] at hv
      exact ⟨hv ▸ clamp01_nonneg _, hv ▸ clamp01_le_one _⟩
  · intro heq
    simp [soil_moisture_from_maximum_temperature, heq]

/-- Witness for `se_root_saturation_index` at concrete pixels. -/
theorem se_root_saturation_index_witness :
    soil_moisture_from_maximum_temperature 3 2 1 = some (1 / 2) ∧
    soil_moisture_from_maximum_temperature 3 2 3 = none := by
  refine ⟨?_, (se_root_saturation_index 3 2 3).2 rfl⟩
  have h := ((se_root_saturation_index 3 2 1).1 (by norm_num)).1
  rw [h]
  norm_num [clamp01]

/-- The two saturated-vapour-pressure formula variants selected by the
ET model-version flag (et_look.py lines 122-127). -/
inductive SvpFormula
  | singleTemperature
  | minMaxAverage
deriving DecidableEq

/-- et_look.py lines 122-127: the only use of the model-version selector in
the ET pipeline.  `"v2"` selects the single-temperature saturated vapour
pressure formula; every other value selects the min/max-average (v3)
variant.  `et_look.main` performs no validation of the selector. -/
def et_look_svp_choice (et_look_version : String) : SvpFormula :=
  if et_look_version = "v2" then .singleTemperature else .minMaxAverage

/-- Python exception kinds raised by the orchestrators. -/
inductive RunError
  | nameError
  | keyError
  | valueError
deriving DecidableEq

/-- et_look.py: the version dispatch of the ET entry point never fails; any
selector value proceeds with the formula variant of `et_look_svp_choice`. -/
def et_look_version_dispatch (v : String) : Except RunError SvpFormula :=
  Except.ok (et_look_svp_choice v)

/-- The two formula modules the soil-moisture entry point can run
(se_root.py lines 67-70). -/
inductive SeRootModel
  | v2
  | dev
deriving DecidableEq

/-- se_root.py lines 67-70 and 79: the `ETLook` module variable is bound only
for `"v2"` and `"dev"`; for any other selector it stays unbound and its use
at line 79 raises `UnboundLocalError` (modelled as `nameError`) before any
formula evaluation. -/
def se_root_version_dispatch (v : String) : Except RunError SeRootModel :=
  if v = "v2" then Except.ok SeRootModel.v2
  else if v = "dev" then Except.ok SeRootModel.dev
  else Except.error RunError.nameError

/-- C2 counterexample: the ET entry point given the unsupported selector
`"v9"` does not fail at all; it silently proceeds with the v3 formula
variant, contradicting the claimed fail-fast configuration error. -/
theorem et_look_unsupported_version_no_error :
    et_look_version_dispatch "v9" = Except.ok SvpFormula.minMaxAverage := by
  rfl

/-- C2 (amended): the ET entry point never validates the version selector:
any value other than `"v2"` is treated as `"v3"` and the run proceeds
without error; the soil-moisture entry point with a selector outside
`{"v2", "dev"}` fails before any formula evaluation, but with an
unbound-variable error, not a dedicated configuration error. -/
theorem version_dispatch_behaviour (v : String) :
    (et_look_version_dispatch v = Except.ok (et_look_svp_choice v)) ∧
    (v ≠ "v2" → et_look_svp_choice v = SvpFormula.minMaxAverage) ∧
    (v ≠ "v2" → v ≠ "dev" →
      se_root_version_dispatch v = Except.error RunError.nameError) ∧
    (se_root_version_dispatch "v2" = Except.ok SeRootModel.v2) ∧
    (se_root_version_dispatch "dev" = Except.ok SeRootModel.dev) := by
  refine ⟨rfl, ?_, ?_, rfl, rfl⟩
  · intro h2
    simp [et_look_svp_choice, h2]
  · intro h2 hd
    simp [se_root_version_dispatch, h2, hd]

/-- Witness for `version_dispatch_behaviour` at the concrete selector
`"v9"`. -/
theorem version_dispatch_behaviour_witness :
    et_look_svp_choice "v9" = SvpFormula.minMaxAverage ∧
    se_root_version_dispatch "v9" = Except.error RunError.nameError := by
  have h := version_dispatch_behaviour "v9"
  exact ⟨h.2.1 (by decide), h.2.2.1 (by decide) (by decide)⟩

/-- A grid cell: `none` is the undefined (not-a-number) sentinel. -/
abbrev Cell := Option ℚ

/-- A flattening of a spatial grid of cells. -/
abbrev Grid := List Cell

/-- Modelled from the spec: per-cell application of an elementwise formula;
an undefined input cell stays undefined, and a per-pixel domain error (the
formula returning `none`) yields the sentinel at that cell (spec §4.1). -/
def applyElem (f : ℚ → Option ℚ) (c : Cell) : Cell := c.bind f

/-- Modelled from the spec: elementwise evaluation of one formula step over a
whole grid (the formula modules invoked by et_look.py line 288-295 under
suppressed numpy warnings are not part of the sources here).  Per spec
§4.1/§7 elementwise evaluation never raises for per-pixel numeric issues, so
the result is always `Except.ok`. -/
def evalElementwise (f : ℚ → Option ℚ) (g : Grid) : Except RunError Grid :=
  Except.ok (g.map (applyElem f))

/-- Modelled from the spec: division yielding the undefined sentinel on a
zero denominator instead of raising or producing ±infinity (spec §4.1). -/
def safeDiv (num den : ℚ) : Option ℚ :=
  if den = 0 then none else some (num / den)

/-- Modelled from the spec: square root yielding the undefined sentinel on a
negative argument (a per-pixel domain error) instead of raising. -/
def safeSqrt (x : ℚ) : Option ℚ :=
  if x < 0 then none else some (Rat.sqrt x)

theorem getD_map_applyElem (f : ℚ → Option ℚ) (g : Grid) (i : ℕ) :
    (g.map (applyElem f)).getD i none = applyElem f (g.getD i none) := by
  induction g generalizing i with
  | nil => simp [applyElem]
  | cons c t ih =>
    cases i with
    | zero => simp
    | succ n => simpa using ih n

/-- C3: elementwise formula evaluation never raises (it always returns a
grid), each output cell is determined by the input cell at the same position
alone, an undefined input cell yields an undefined output cell at that
position only, and the division-by-zero and negative-square-root domain
errors yield the sentinel rather than an exception. -/
theorem elementwise_sentinel_propagation (f : ℚ → Option ℚ) (g : Grid) :
    (∃ out : Grid, evalElementwise f g = Except.ok out ∧
      ∀ i : ℕ, out.getD i none = applyElem f (g.getD i none)) ∧
    (∀ i : ℕ, g.getD i none = none →
      (g.map (applyElem f)).getD i none = none) ∧
    (∀ num : ℚ, safeDiv num 0 = none) ∧
    (∀ x : ℚ, x < 0 → safeSqrt x = none) := by
  refine ⟨⟨g.map (applyElem f), rfl, fun i => getD_map_applyElem f g i⟩, ?_, ?_, ?_⟩
  · intro i hi
    rw [getD_map_applyElem f g i, hi]
    rfl
  · intro num
    simp [safeDiv]
  · intro x hx
    simp [safeSqrt, hx]

/-- Witness for `elementwise_sentinel_propagation` on a concrete grid with an
undefined cell, a zero denominator and a negative square-root argument. -/
theorem elementwise_sentinel_propagation_witness :
    (([some 2, none, some 0] : Grid).map (applyElem (safeDiv 1))).getD 1 none
      = none ∧
    safeDiv 5 0 = none ∧
    safeSqrt (-1) = none := by
  have h := elementwise_sentinel_propagation (safeDiv 1) [some 2, none, some 0]
  exact ⟨h.2.1 1 rfl, h.2.2.1 5, h.2.2.2 (-1) (by norm_num)⟩

/-- Per-pixel state of the iterative stability solver (spec §3,
ConvergenceState): current friction velocity, sensible heat flux,
Monin-Obukhov stability length, and an iteration counter. -/
structure ConvergenceState where
  u_star : ℚ
  h_flux : ℚ
  stab_length : ℚ
  iterCount : ℕ
deriving DecidableEq

/-- Modelled from the spec: Monin-Obukhov stability length computed from the
current sensible heat flux and friction velocity; at zero sensible heat flux
(the neutral limit) the neutral-limit value is returned directly instead of
dividing by the near-zero flux (spec §4.3).  Constants are the specific heat
of air, the von Karman constant and gravity. -/
def moninObukhovLength (neutralL ad t_air_k u_star h : ℚ) : ℚ :=
  if h = 0 then neutralL
  else -(ad * 1004 * u_star ^ 3 * t_air_k) / (41 / 100 * (981 / 100) * h)

/-- Modelled from the spec: the per-pixel drivers of one stability loop
(spec §4.3); the closed forms of the friction-velocity and flux updates
involve logarithmic wind profiles not given by the spec, so they are opaque
elementwise functions of the corrected stability length here. -/
structure StabilityModel where
  neutralL : ℚ
  ad : ℚ
  t_air_k : ℚ
  frictionVelocityOf : ℚ → ℚ
  fluxOf : ℚ → ℚ → ℚ

/-- Modelled from the spec: one iteration of the stability loop — (a)
stability length from current flux and friction velocity, (b) friction
velocity under that correction, (c) flux from the corrected resistance —
and the iteration counter advances by one (spec §4.3). -/
def stabilityStep (m : StabilityModel) (s : ConvergenceState) : ConvergenceState :=
  let L := moninObukhovLength m.neutralL m.ad m.t_air_k s.u_star s.h_flux
  let u := m.frictionVelocityOf L
  let h := m.fluxOf u L
  { u_star := u, h_flux := h, stab_length := L, iterCount := s.iterCount + 1 }

/-- Modelled from the spec: the fixed-iteration stability loop of
`unstable.transpiration`/`unstable.evaporation` (invoked at et_look.py lines
187 and 218; the `unstable` formula module is not part of the sources
here): no convergence check and no early exit, the loop runs for the fixed
iteration count (spec §4.3). -/
def stabilitySolve (m : StabilityModel) : ℕ → ConvergenceState → ConvergenceState
  | 0, s => s
  | n + 1, s => stabilitySolve m n (stabilityStep m s)

/-- Modelled from the spec: the canopy (transpiration) and soil
(evaporation) paths run the stability loop independently and identically on
their own states, sharing no iteration state (spec §4.3). -/
def dualStabilitySolve (n : ℕ) (mc ms : StabilityModel)
    (sc ss : ConvergenceState) : ConvergenceState × ConvergenceState :=
  (stabilitySolve mc n sc, stabilitySolve ms n ss)

theorem stabilitySolve_iterCount (m : StabilityModel) (n : ℕ)
    (s : ConvergenceState) :
    (stabilitySolve m n s).iterCount = s.iterCount + n := by
  induction n generalizing s with
  | zero => simp [stabilitySolve]
  | succ k ih =>
    rw [stabilitySolve, ih]
    simp [stabilityStep]
    omega

theorem stabilitySolve_eq_iterate (m : StabilityModel) (n : ℕ)
    (s : ConvergenceState) :
    stabilitySolve m n s = (stabilityStep m)^[n] s := by
  induction n generalizing s with
  | zero => rfl
  | succ k ih =>
    rw [stabilitySolve, ih, Function.iterate_succ_apply]

/-- C4: for every input (including zero sensible heat flux) the stability
solver performs exactly the fixed number of iterations — it is exactly the
n-fold application of the per-iteration step, with no early exit and no
extra iteration — for both the canopy and the soil path, each on its own
state; and the stability-length formula returns the neutral-limit value at
zero sensible heat flux instead of dividing by zero, so every pixel ends
with a finite (rational) estimate and no error is flagged. -/
theorem stability_solver_fixed_iterations (m mc ms : StabilityModel) (n : ℕ)
    (s sc ss : ConvergenceState) :
    (stabilitySolve m n s).iterCount = s.iterCount + n ∧
    stabilitySolve m n s = (stabilityStep m)^[n] s ∧
    (dualStabilitySolve n mc ms sc ss).1.iterCount = sc.iterCount + n ∧
    (dualStabilitySolve n mc ms sc ss).2.iterCount = ss.iterCount + n ∧
    (∀ neutralL ad t u : ℚ, moninObukhovLength neutralL ad t u 0 = neutralL) := by
  refine ⟨stabilitySolve_iterCount m n s, stabilitySolve_eq_iterate m n s,
    stabilitySolve_iterCount mc n sc, stabilitySolve_iterCount ms n ss,
    fun neutralL ad t u => ?_⟩
  simp [moninObukhovLength]

/-- Modelled from the spec: a stress multiplier is an independent
elementwise formula whose result is clamped into [0, 1], with values below
zero clamped to zero (spec §4.2); the raw formula itself is not given by
the spec, so it is a parameter. -/
def stressMultiplier (raw : ℚ → ℚ) (x : ℚ) : ℚ := clamp01 (raw x)

/-- Modelled from the spec: radiation stress factor, invoked at et_look.py
line 111 (the `stress` formula module is not part of the sources here). -/
def stress_radiation (raw : ℚ → ℚ) (ra_24 : ℚ) : ℚ := stressMultiplier raw ra_24

/-- Modelled from the spec: vapour-pressure-deficit stress factor, invoked
at et_look.py line 130. -/
def stress_vpd (raw : ℚ → ℚ) (vpd_24 : ℚ) : ℚ := stressMultiplier raw vpd_24

/-- Modelled from the spec: temperature stress factor, invoked at et_look.py
line 132. -/
def stress_temperature (raw : ℚ → ℚ) (t_air_24 : ℚ) : ℚ :=
  stressMultiplier raw t_air_24

/-- Modelled from the spec: soil-moisture stress factor, invoked at
et_look.py line 150. -/
def stress_moisture (raw : ℚ → ℚ) (se_root : ℚ) : ℚ := stressMultiplier raw se_root

/-- C5: for every finite input, including extreme out-of-range values, each
of the four stress multipliers lies in [0, 1], and a raw stress value below
zero is clamped to zero. -/
theorem stress_multipliers_in_unit_interval (raw : ℚ → ℚ) (x : ℚ) :
    (0 ≤ stress_radiation raw x ∧ stress_radiation raw x ≤ 1) ∧
    (0 ≤ stress_vpd raw x ∧ stress_vpd raw x ≤ 1) ∧
    (0 ≤ stress_temperature raw x ∧ stress_temperature raw x ≤ 1) ∧
    (0 ≤ stress_moisture raw x ∧ stress_moisture raw x ≤ 1) ∧
    (raw x < 0 →
      stress_radiation raw x = 0 ∧ stress_vpd raw x = 0 ∧
      stress_temperature raw x = 0 ∧ stress_moisture raw x = 0) := by
  have hb : ∀ y : ℚ, 0 ≤ clamp01 y ∧ clamp01 y ≤ 1 :=
    fun y => ⟨clamp01_nonneg y, clamp01_le_one y⟩
  refine ⟨hb _, hb _, hb _, hb _, fun hneg => ?_⟩
  have h0 : clamp01 (raw x) = 0 := clamp01_of_nonpos (le_of_lt hneg)
  exact ⟨h0, h0, h0, h0⟩

/-- Witness for `stress_multipliers_in_unit_interval` at a concrete raw
formula and extreme inputs. -/
theorem stress_multipliers_witness :
    stress_radiation (fun t => t) (-3) = 0 ∧
    0 ≤ stress_vpd (fun t => t) 1000000 ∧
    stress_vpd (fun t => t) 1000000 ≤ 1 := by
  have h1 := stress_multipliers_in_unit_interval (fun t => t) (-3)
  have h2 := stress_multipliers_in_unit_interval (fun t => t) 1000000
  exact ⟨(h1.2.2.2.2 (by norm_num)).1, h2.2.1.1, h2.2.1.2⟩

/-- The optional static inputs that `et_look.main` fills with constant
defaults when they arrive as the missing-field placeholder (et_look.py
lines 63-73); `none` models the object-dtype placeholder. -/
structure EtLookOptionalInputs where
  rs_min : Option ℚ
  land_mask : Option ℚ
  z_obst_max : Option ℚ
deriving DecidableEq

/-- The optional inputs after default substitution, together with the log
messages emitted for the substitutions. -/
structure FilledInputs where
  rs_min : ℚ
  land_mask : ℚ
  z_obst_max : ℚ
  logMsgs : List String
deriving DecidableEq

/-- et_look.py lines 63-73: each missing optional field is replaced by its
documented constant default (`rs_min` 100, `land_mask` 1, `z_obst_max` 3)
and the substitution is written to the log; a present field is left
untouched and nothing is logged for it.  The function is total, so the
pipeline always proceeds past this stage. -/
def fill_optional_defaults (ds : EtLookOptionalInputs) : FilledInputs :=
  { rs_min := ds.rs_min.getD 100
    land_mask := ds.land_mask.getD 1
    z_obst_max := ds.z_obst_max.getD 3
    logMsgs :=
      (if ds.rs_min = none then ["--> Setting rs_min to 100."] else []) ++
      (if ds.land_mask = none then ["--> Setting land_mask to 1."] else []) ++
      (if ds.z_obst_max = none then ["--> Setting z_obst_max to 3."] else []) }

/-- C6: for every input container from which `rs_min` is absent, the ET
pipeline substitutes the documented default 100 before evaluation begins
and reports the substitution in the log; a present `rs_min` is kept
unchanged with no substitution message. -/
theorem rs_min_default_substitution (ds : EtLookOptionalInputs) :
    (ds.rs_min = none →
      (fill_optional_defaults ds).rs_min = 100 ∧
      "--> Setting rs_min to 100." ∈ (fill_optional_defaults ds).logMsgs) ∧
    (∀ v : ℚ, ds.rs_min = some v →
      (fill_optional_defaults ds).rs_min = v ∧
      "--> Setting rs_min to 100." ∉ (fill_optional_defaults ds).logMsgs) := by
  constructor
  · intro h
    refine ⟨by simp [fill_optional_defaults, h], ?_⟩
    simp [fill_optional_defaults, h]
  · intro v h
    refine ⟨by simp [fill_optional_defaults, h], ?_⟩
    simp only [fill_optional_defaults, h]
    intro hmem
    simp only [List.mem_append] at hmem
    rcases hmem with (hmem | hmem) | hmem <;>
      · split at hmem <;> simp_all

/-- Witness for `rs_min_default_substitution` on a container missing
`rs_min`. -/
theorem rs_min_default_substitution_witness :
    (fill_optional_defaults ⟨none, some 1, some 3⟩).rs_min = 100 ∧
    "--> Setting rs_min to 100." ∈
      (fill_optional_defaults ⟨none, some 1, some 3⟩).logMsgs :=
  (rs_min_default_substitution ⟨none, some 1, some 3⟩).1 rfl

/-- The shapes an `export_vars` argument can take; `invalid` stands for any
value outside the three documented shapes. -/
inductive ExportVars
  | all
  | defaultPreset
  | explicitList (vars : List String)
  | invalid (v : String)

/-- The preset list kept by `export_vars = "default"` in et_look.py lines
261-268 (note `et_ref_24_mm` is computed at line 226 but not in this
preset). -/
def et_look_default_vars : List String :=
  ["int_mm", "t_24_mm", "e_24_mm", "aeti_24_mm", "se_root"]

/-- et_look.py lines 258-275: variable selection over the names of the
computed variables (`dsVars`, after object-dtype placeholders are dropped
at line 252): `"all"` keeps everything, `"default"` keeps the presets that
are actually present (missing presets are silently dropped, line 269), an
explicit list indexes the dataset and raises `KeyError` when a listed
variable is absent, and any other value raises `ValueError` (line 275). -/
def et_look_select (dsVars : List String) :
    ExportVars → Except RunError (List String)
  | ExportVars.all => Except.ok dsVars
  | ExportVars.defaultPreset =>
      Except.ok (et_look_default_vars.filter (fun x => dsVars.contains x))
  | ExportVars.explicitList vs =>
      if vs.all (fun v => dsVars.contains v) then Except.ok vs
      else Except.error RunError.keyError
  | ExportVars.invalid _ => Except.error RunError.valueError

/-- et_look.py lines 277-279 (likewise se_root.py lines 184-186): when the
selected set is empty the entry point logs a message and returns `None`
instead of a dataset. -/
def emptyToNone (sel : Except RunError (List String)) :
    Except RunError (Option (List String)) :=
  sel.map (fun l => if l.isEmpty then none else some l)

/-- The full output selection of the ET entry point. -/
def et_look_export (dsVars : List String) (ev : ExportVars) :
    Except RunError (Option (List String)) :=
  emptyToNone (et_look_select dsVars ev)

/-- se_root.py lines 171-180: `"default"` keeps `se_root` by indexing the
dataset directly (raising `KeyError` when it is absent — there is no
presence filter, unlike et_look), an explicit list likewise, and any other
value raises a bare `ValueError` (line 180). -/
def se_root_select (dsVars : List String) :
    ExportVars → Except RunError (List String)
  | ExportVars.all => Except.ok dsVars
  | ExportVars.defaultPreset =>
      if dsVars.contains "se_root" then Except.ok ["se_root"]
      else Except.error RunError.keyError
  | ExportVars.explicitList vs =>
      if vs.all (fun v => dsVars.contains v) then Except.ok vs
      else Except.error RunError.keyError
  | ExportVars.invalid _ => Except.error RunError.valueError

/-- The full output selection of the soil-moisture entry point. -/
def se_root_export (dsVars : List String) (ev : ExportVars) :
    Except RunError (Option (List String)) :=
  emptyToNone (se_root_select dsVars ev)

/-- C7 counterexample: on a run whose computed container holds only
`se_root`, `export_vars = "default"` produces the output `["se_root"]`,
not the preset variable list — the claim that the output holds exactly the
preset list is false. -/
theorem export_default_not_preset_counterexample :
    et_look_export ["se_root"] ExportVars.defaultPreset
      = Except.ok (some ["se_root"]) ∧
    ["se_root"] ≠ et_look_default_vars :=
  ⟨rfl, by decide⟩

/-- C7 (amended): `"all"` keeps all computed fields; `"default"` keeps the
presets restricted to the computed variables (et_look) or exactly
`se_root` when it was computed and raises `KeyError` when it was not
(se_root); an explicit list whose members are all computed yields exactly
those variables; any `export_vars` value outside the three shapes fails
immediately with `ValueError` in both entry points; an empty selection
yields `None` instead of a dataset in both entry points. -/
theorem export_vars_selection (dsVars : List String) :
    (et_look_select dsVars ExportVars.all = Except.ok dsVars ∧
     se_root_select dsVars ExportVars.all = Except.ok dsVars) ∧
    (et_look_select dsVars ExportVars.defaultPreset
      = Except.ok (et_look_default_vars.filter (fun x => dsVars.contains x))) ∧
    (dsVars.contains "se_root" = true →
      se_root_select dsVars ExportVars.defaultPreset
        = Except.ok ["se_root"]) ∧
    (∀ vs : List String, vs.all (fun v => dsVars.contains v) = true →
      et_look_select dsVars (ExportVars.explicitList vs) = Except.ok vs ∧
      se_root_select dsVars (ExportVars.explicitList vs) = Except.ok vs) ∧
    (∀ v : String,
      et_look_export dsVars (ExportVars.invalid v)
        = Except.error RunError.valueError ∧
      se_root_export dsVars (ExportVars.invalid v)
        = Except.error RunError.valueError) ∧
    (∀ ev : ExportVars, et_look_select dsVars ev = Except.ok [] →
      et_look_export dsVars ev = Except.ok none) ∧
    (dsVars.contains "se_root" = false →
      se_root_select dsVars ExportVars.defaultPreset
        = Except.error RunError.keyError) ∧
    (∀ ev : ExportVars, se_root_select dsVars ev = Except.ok [] →
      se_root_export dsVars ev = Except.ok none) := by
  refine ⟨⟨rfl, rfl⟩, rfl, ?_, ?_, ?_, ?_, ?_, ?_⟩
  · intro h
    simp only [se_root_select]
    rw [if_pos h]
  · intro vs h
    constructor <;> · simp only [et_look_select, se_root_select]; rw [if_pos h]
  · intro v
    exact ⟨rfl, rfl⟩
  · intro ev h
    simp only [et_look_export, emptyToNone, h]
    rfl
  · intro h
    simp only [se_root_select]
    rw [if_neg]
    simpa using h
  · intro ev h
    simp only [se_root_export, emptyToNone, h]
    rfl

/-- Witness for `export_vars_selection` at concrete containers and selector
values, including a container from which `se_root` is missing. -/
theorem export_vars_selection_witness :
    se_root_select ["se_root", "lst_max"] ExportVars.defaultPreset
      = Except.ok ["se_root"] ∧
    et_look_select ["se_root", "lst_max"]
        (ExportVars.explicitList ["lst_max"]) = Except.ok ["lst_max"] ∧
    et_look_export ["se_root", "lst_max"] (ExportVars.invalid "everything")
      = Except.error RunError.valueError ∧
    et_look_export ["se_root", "lst_max"] (ExportVars.explicitList [])
      = Except.ok none ∧
    se_root_select ["lst_max"] ExportVars.defaultPreset
      = Except.error RunError.keyError ∧
    se_root_export ["se_root", "lst_max"] (ExportVars.explicitList [])
      = Except.ok none := by
  have h := export_vars_selection ["se_root", "lst_max"]
  have h2 := export_vars_selection ["lst_max"]
  exact ⟨h.2.2.1 (by decide), (h.2.2.2.1 ["lst_max"] (by decide)).1,
    (h.2.2.2.2.1 "everything").1,
    h.2.2.2.2.2.1 (ExportVars.explicitList []) rfl,
    h2.2.2.2.2.2.2.1 (by decide),
    h.2.2.2.2.2.2.2 (ExportVars.explicitList []) rfl⟩

/-- C10: in the ET pipeline's output selection, presets that were not
computed are silently dropped (never an error); an explicitly listed
variable absent from the computed container raises `KeyError`; and an empty
selected set makes the entry point return `None` instead of a dataset. -/
theorem et_look_output_selection_edge_cases (dsVars : List String) :
    (∃ kept : List String,
      et_look_select dsVars ExportVars.defaultPreset = Except.ok kept ∧
      ∀ p : String, p ∈ et_look_default_vars → dsVars.contains p = false →
        p ∉ kept) ∧
    (∀ vs : List String, ∀ v : String, v ∈ vs → dsVars.contains v = false →
      et_look_select dsVars (ExportVars.explicitList vs)
        = Except.error RunError.keyError) ∧
    (∀ ev : ExportVars, et_look_select dsVars ev = Except.ok [] →
      et_look_export dsVars ev = Except.ok none) := by
  refine ⟨⟨et_look_default_vars.filter (fun x => dsVars.contains x), rfl,
    ?_⟩, ?_, ?_⟩
  · intro p _ hp hmem
    rw [List.mem_filter] at hmem
    rw [hmem.2] at hp
    cases hp
  · intro vs v hv hcon
    have hall : vs.all (fun v => dsVars.contains v) = false := by
      rw [List.all_eq_false]
      exact ⟨v, hv, by simpa using hcon⟩
    simp only [et_look_select]
    rw [if_neg]
    rw [hall]
    simp
  · intro ev h
    simp only [et_look_export, emptyToNone, h]
    rfl

/-- Witness for `et_look_output_selection_edge_cases` at a concrete
container. -/
theorem et_look_output_selection_witness :
    et_look_select ["se_root"] (ExportVars.explicitList ["npp"])
      = Except.error RunError.keyError ∧
    et_look_export ["se_root"] (ExportVars.explicitList [])
      = Except.ok none := by
  have h := et_look_output_selection_edge_cases ["se_root"]
  exact ⟨h.2.1 ["npp"] "npp" (by decide) (by decide),
    h.2.2 (ExportVars.explicitList []) rfl⟩

/-- The model container: an ordered mapping from field name to a scalar
stand-in for a grid field value; the head of the list is the most recently
written field (spec §3, ModelContainer). -/
abbrev Container := List (String × ℚ)

/-- Reading a field from the container. -/
def lookupVar (ds : Container) (n : String) : Option ℚ :=
  (ds.find? (fun p => p.1 == n)).map (fun p => p.2)

/-- Reading all declared inputs of one formula step; `none` when any of them
is missing. -/
def readInputs (ds : Container) (ns : List String) : Option (List ℚ) :=
  ns.mapM (lookupVar ds)

/-- One formula step of the pipeline: the output field it writes, the input
fields it declares, and the pure formula combining them (spec §3,
DerivedQuantity). -/
structure FormulaStep where
  output : String
  inputs : List String
  formula : List ℚ → ℚ

/-- One dependency-gated evaluation step: et_look.main writes
`ds[name] = formula(...)` for each quantity in fixed order, and the lazifier
decoration at et_look.py line 59 skips a formula when one of its declared
inputs is missing (spec §9). -/
def evalStep (ds : Container) (st : FormulaStep) : Container :=
  match readInputs ds st.inputs with
  | some vals => (st.output, st.formula vals) :: ds
  | none => ds

/-- The fixed-order evaluation pipeline of et_look.main lines 75-226: a fold
of the formula steps over the container. -/
def runPipeline (steps : List FormulaStep) (ds : Container) : Container :=
  steps.foldl evalStep ds

theorem lookupVar_cons_self (ds : Container) (n : String) (v : ℚ) :
    lookupVar ((n, v) :: ds) n = some v := by
  simp [lookupVar, List.find?_cons_of_pos]

theorem readInputs_congr {ds₁ ds₂ : Container} (ns : List String)
    (h : ∀ n ∈ ns, lookupVar ds₁ n = lookupVar ds₂ n) :
    readInputs ds₁ ns = readInputs ds₂ ns := by
  induction ns with
  | nil => rfl
  | cons a t ih =>
    simp only [readInputs, List.mapM_cons] at *
    rw [h a (by simp), ih (fun n hn => h n (List.mem_cons_of_mem a hn))]

/-- C8: the pipeline is deterministic — two runs on identical input (same
steps, hence same model version and export set) yield identical output —
and each derived quantity is fully determined by its declared inputs: two
containers agreeing on a step's declared inputs read the same input values
and compute the same value for the step's output field. -/
theorem pipeline_deterministic (steps : List FormulaStep)
    (ds₁ ds₂ : Container) :
    (ds₁ = ds₂ → runPipeline steps ds₁ = runPipeline steps ds₂) ∧
    (∀ st : FormulaStep,
      (∀ n ∈ st.inputs, lookupVar ds₁ n = lookupVar ds₂ n) →
      readInputs ds₁ st.inputs = readInputs ds₂ st.inputs ∧
      ∀ vals : List ℚ, readInputs ds₁ st.inputs = some vals →
        lookupVar (evalStep ds₁ st) st.output = some (st.formula vals) ∧
        lookupVar (evalStep ds₂ st) st.output = some (st.formula vals)) := by
  constructor
  · intro h
    rw [h]
  · intro st h
    have hr := readInputs_congr st.inputs h
    refine ⟨hr, fun vals hv => ?_⟩
    have hv₂ : readInputs ds₂ st.inputs = some vals := by rw [← hr]; exact hv
    constructor
    · simp [evalStep, hv, lookupVar_cons_self]
    · simp [evalStep, hv₂, lookupVar_cons_self]

/-- Witness for `pipeline_deterministic`: the same step computed over two
containers that agree on its declared inputs (the second holds an extra
unrelated field) yields the same output value. -/
theorem pipeline_deterministic_witness :
    lookupVar
      (evalStep [("svp_24", 30), ("vp_24", 12)]
        ⟨"vpd_24", ["svp_24", "vp_24"], fun vals => vals.foldl (· + ·) 0⟩)
      "vpd_24" = some 42 ∧
    lookupVar
      (evalStep [("lst", 300), ("svp_24", 30), ("vp_24", 12)]
        ⟨"vpd_24", ["svp_24", "vp_24"], fun vals => vals.foldl (· + ·) 0⟩)
      "vpd_24" = some 42 := by
  have h := (pipeline_deterministic []
      [("svp_24", 30), ("vp_24", 12)]
      [("lst", 300), ("svp_24", 30), ("vp_24", 12)]).2
    ⟨"vpd_24", ["svp_24", "vp_24"], fun vals => vals.foldl (· + ·) 0⟩
    (by decide)
  have h2 := h.2 [30, 12] rfl
  refine ⟨h2.1.trans ?_, h2.2.trans ?_⟩ <;> · norm_num

/-- A heap of containers; an in-memory dataset handed to the entry point is
an address into the heap, so that mutation of one dataset object is visible
through every alias of that address. -/
abbrev Heap := List Container

/-- Reading the container at an address. -/
def heapGet (h : Heap) (a : ℕ) : Container := h.getD a []

/-- Overwriting the container at an address. -/
def heapSet (h : Heap) (a : ℕ) (c : Container) : Heap := h.set a c

/-- et_look.py lines 41-45: given an in-memory dataset, the entry point
deep-copies it (`copy.deepcopy(input_data)`) to a fresh address and every
subsequent pipeline write mutates the copy; the caller's address is never
written.  Returns the final heap and the address of the copy. -/
def et_look_run_inmem (h : Heap) (inputAddr : ℕ) (steps : List FormulaStep) :
    Heap × ℕ :=
  let copyAddr := h.length
  let h1 := h ++ [heapGet h inputAddr]
  (heapSet h1 copyAddr (runPipeline steps (heapGet h1 copyAddr)), copyAddr)

/-- C9: for every heap, valid input address and step list, running the ET
entry point on an in-memory dataset leaves the caller's container unchanged
(no field added, removed or overwritten at the caller's address), because
all evaluation happens on a deep copy living at a fresh address. -/
theorem et_look_inmem_frame (h : Heap) (a : ℕ) (steps : List FormulaStep)
    (ha : a < h.length) :
    heapGet (et_look_run_inmem h a steps).1 a = heapGet h a ∧
    (et_look_run_inmem h a steps).2 ≠ a := by
  have hne : h.length ≠ a := by omega
  constructor
  · simp only [et_look_run_inmem, heapGet, heapSet]
    rw [List.getD_eq_getElem?_getD, List.getElem?_set_ne hne,
      List.getElem?_append_left ha, ← List.getD_eq_getElem?_getD]
  · simpa using hne

/-- Witness for `et_look_inmem_frame` on a concrete one-container heap. -/
theorem et_look_inmem_frame_witness :
    heapGet (et_look_run_inmem [[("lst", 300)]] 0 []).1 0 = [("lst", 300)] ∧
    (et_look_run_inmem [[("lst", 300)]] 0 []).2 ≠ 0 := by
  have h := et_look_inmem_frame [[("lst", 300)]] 0 [] (by decide)
  exact ⟨h.1, h.2⟩

end Pywapor
